import Mathlib

/-!
# Verification of the quiqupgo tracing provider-cache subsystem

Shallow embedding of the `tracing` package of quiqupltd/quiqupgo:
the keyed provider cache (`tracer.go`, `logging.go`, the meter file),
TLS-material loading (`common.go`), the shutdown helpers and the
fx lifecycle stop hook (`module.go`).

Providers are modelled by allocation identifiers (`Nat`); the Go `nil`
provider pointer is `Option.none`.  The mutable package-level cache maps
become explicit state threaded through the functions.  External
collaborators (crypto/tls key-pair parsing, x509 CA-pool appending,
resource construction, OTLP exporter construction, a provider's own
Shutdown) are abstracted as an `Ext` record of oracles, since their code
lives outside this repository; everything else is translated from the
repository's source.
-/

namespace Tracing

/-- The `tracing.Config` interface of `config.go`, in its
`StandardConfig` field form: service identity, OTLP endpoint and
base64-encoded TLS material. -/
structure Config where
  serviceName : String
  environmentName : String
  otlpEndpoint : String
  otlpInsecure : Bool
  otlpTLSCert : String
  otlpTLSKey : String
  otlpTLSCA : String
deriving Repr, DecidableEq

/-- `Config.GetServiceName`. -/
def Config.GetServiceName (c : Config) : String := c.serviceName

/-- `Config.GetEnvironmentName`. -/
def Config.GetEnvironmentName (c : Config) : String := c.environmentName

/-- `Config.GetOTLPEndpoint`. -/
def Config.GetOTLPEndpoint (c : Config) : String := c.otlpEndpoint

/-- `Config.GetOTLPInsecure`. -/
def Config.GetOTLPInsecure (c : Config) : Bool := c.otlpInsecure

/-- `Config.GetOTLPTLSCert`. -/
def Config.GetOTLPTLSCert (c : Config) : String := c.otlpTLSCert

/-- `Config.GetOTLPTLSKey`. -/
def Config.GetOTLPTLSKey (c : Config) : String := c.otlpTLSKey

/-- `Config.GetOTLPTLSCA`. -/
def Config.GetOTLPTLSCA (c : Config) : String := c.otlpTLSCA

/-! ## Go base64.StdEncoding.DecodeString

Modelled from Go's `encoding/base64` standard encoding with padding:
the alphabet `A-Z a-z 0-9 + /`, four-character quanta, `=` padding only
at the end of the final quantum, carriage returns and newlines skipped.
Error positions are counted in the newline-stripped input. -/

/-- Value of one character of the standard base64 alphabet, `none` for a
character outside it. -/
def base64Index (c : Char) : Option Nat :=
  if 'A' ≤ c ∧ c ≤ 'Z' then some (c.toNat - 'A'.toNat)
  else if 'a' ≤ c ∧ c ≤ 'z' then some (c.toNat - 'a'.toNat + 26)
  else if '0' ≤ c ∧ c ≤ '9' then some (c.toNat - '0'.toNat + 52)
  else if c = '+' then some 62
  else if c = '/' then some 63
  else none

/-- The message of Go's `base64.CorruptInputError`. -/
def corruptInputErrorMsg (i : Nat) : String :=
  "illegal base64 data at input byte " ++ toString i

/-- Decode a newline-stripped character list, quantum by quantum,
tracking the byte position for error reporting. -/
def base64DecodeGroups : Nat → List Char → Except String (List Nat)
  | _, [] => Except.ok []
  | pos, c1 :: c2 :: c3 :: c4 :: rest =>
    match base64Index c1 with
    | none => Except.error (corruptInputErrorMsg pos)
    | some a =>
      match base64Index c2 with
      | none => Except.error (corruptInputErrorMsg (pos + 1))
      | some b =>
        if c3 = '=' then
          if c4 = '=' ∧ rest = [] then Except.ok [a * 4 + b / 16]
          else Except.error (corruptInputErrorMsg (pos + 3))
        else
          match base64Index c3 with
          | none => Except.error (corruptInputErrorMsg (pos + 2))
          | some c =>
            if c4 = '=' then
              if rest = [] then Except.ok [a * 4 + b / 16, (b % 16) * 16 + c / 4]
              else Except.error (corruptInputErrorMsg (pos + 4))
            else
              match base64Index c4 with
              | none => Except.error (corruptInputErrorMsg (pos + 3))
              | some d =>
                match base64DecodeGroups (pos + 4) rest with
                | Except.error e => Except.error e
                | Except.ok bs =>
                  Except.ok ((a * 4 + b / 16) :: ((b % 16) * 16 + c / 4) ::
                    ((c % 4) * 64 + d) :: bs)
  | pos, _ => Except.error (corruptInputErrorMsg pos)

/-- Go's `base64.StdEncoding.DecodeString`, as used by `GetTLSConfig`. -/
def base64DecodeString (s : String) : Except String (List Nat) :=
  base64DecodeGroups 0 (s.data.filter fun c => c != '\r' && c != '\n')

/-! ## TLS configuration (`common.go` GetTLSConfig) -/

/-- Go's `tls.VersionTLS12` constant. -/
def VersionTLS12 : Nat := 0x0303

/-- A `tls.Certificate` produced by `tls.X509KeyPair`, keeping the two
PEM blocks it was built from. -/
structure TLSCertificate where
  certPEM : List Nat
  keyPEM : List Nat
deriving Repr, DecidableEq

/-- The fields of `tls.Config` that `GetTLSConfig` sets: the minimum
version, the client certificate list and the root CA pool (modelled as
the list of PEM blocks appended to it). -/
structure TLSConfig where
  minVersion : Nat
  certificates : List TLSCertificate := []
  rootCAs : Option (List (List Nat)) := none
deriving Repr, DecidableEq

/-- A deadline-carrying Go `context.Context` (absolute time units,
`none` = no deadline). -/
structure GoContext where
  deadline : Option Nat
deriving Repr, DecidableEq

/-- Go's `time.Second` in nanoseconds. -/
def timeSecond : Nat := 1000000000

/-- Go's `context.WithTimeout(ctx, d)` at current time `now`: the child
deadline is `now + d`, capped by the parent's deadline when the parent
has an earlier one. -/
def withTimeout (ctx : GoContext) (now d : Nat) : GoContext :=
  { deadline := some (match ctx.deadline with
      | none => now + d
      | some t => min t (now + d)) }

/-- Oracles for the external collaborators of the subsystem: outcomes of
`tls.X509KeyPair`, `x509.CertPool.AppendCertsFromPEM`, `resource.New`,
the OTLP exporter constructors, and a live provider's `Shutdown`. -/
structure Ext where
  x509KeyPair : List Nat → List Nat → Except String Unit
  appendCertsFromPEM : List Nat → Bool
  resourceNew : Config → Except String Unit
  exporterNew : Config → Except String Unit
  providerShutdown : Nat → GoContext → Option String

/-- Lines 49-66 of `common.go`: load the client certificate when both
the certificate and the key are provided. -/
def loadClientCertStep (ext : Ext) (certB64 keyB64 : String)
    (tlsConfig : TLSConfig) : Except String TLSConfig :=
  if certB64 ≠ "" ∧ keyB64 ≠ "" then
    match base64DecodeString certB64 with
    | Except.error e => Except.error ("failed to decode TLS certificate: " ++ e)
    | Except.ok certPEM =>
      match base64DecodeString keyB64 with
      | Except.error e => Except.error ("failed to decode TLS key: " ++ e)
      | Except.ok keyPEM =>
        match ext.x509KeyPair certPEM keyPEM with
        | Except.error e => Except.error ("failed to load TLS key pair: " ++ e)
        | Except.ok _ =>
          Except.ok { tlsConfig with certificates := [⟨certPEM, keyPEM⟩] }
  else Except.ok tlsConfig

/-- Lines 68-81 of `common.go`: load the CA certificate when provided. -/
def loadCAStep (ext : Ext) (caB64 : String) (tlsConfig : TLSConfig) :
    Except String TLSConfig :=
  if caB64 ≠ "" then
    match base64DecodeString caB64 with
    | Except.error e =>
      Except.error ("failed to decode TLS CA certificate: " ++ e)
    | Except.ok caPEM =>
      if ext.appendCertsFromPEM caPEM then
        Except.ok { tlsConfig with rootCAs := some [caPEM] }
      else Except.error "failed to parse TLS CA certificate"
  else Except.ok tlsConfig

/-- `GetTLSConfig` of `common.go`: `nil` (no TLS config) when no
material is provided at all, otherwise a TLS 1.2-minimum config with
client certificate and CA pool loaded from the base64 fields. -/
def GetTLSConfig (ext : Ext) (cfg : Config) : Except String (Option TLSConfig) :=
  let certB64 := cfg.GetOTLPTLSCert
  let keyB64 := cfg.GetOTLPTLSKey
  let caB64 := cfg.GetOTLPTLSCA
  if certB64 = "" ∧ keyB64 = "" ∧ caB64 = "" then
    Except.ok none
  else
    match loadClientCertStep ext certB64 keyB64 { minVersion := VersionTLS12 } with
    | Except.error e => Except.error e
    | Except.ok tlsConfig =>
      match loadCAStep ext caB64 tlsConfig with
      | Except.error e => Except.error e
      | Except.ok tlsConfig => Except.ok (some tlsConfig)

/-! ## The keyed provider cache (`tracer.go`, `logging.go`, the meter file)

A provider is an allocation identifier; the Go `nil` provider pointer is
`none`.  The package-level map, the fresh-identifier supply, the number
of exporter-constructor invocations ("network dials") and the sequence
of `Shutdown` calls issued on providers form the explicit state. -/

/-- State of one provider cache (one per provider kind): the
service-name-keyed map (an entry with value `none` is a cached `nil`
provider), the fresh-identifier supply, the count of exporter
constructor invocations, the providers that received a `Shutdown` call
through this cache, and the process-wide ambient provider slot. -/
structure ProviderCacheState where
  cache : List (String × Option Nat) := []
  nextId : Nat := 0
  constructions : Nat := 0
  closes : List Nat := []
  globalProvider : Option Nat := none
deriving Repr, DecidableEq

/-- `moduleOptions` of `options.go` (durations in nanoseconds; the
sampler is opaque, `none` = SDK default). -/
structure ModuleOptions where
  batchTimeout : Nat
  metricInterval : Nat
  sampler : Option Nat
deriving Repr, DecidableEq

/-- `defaultModuleOptions` of `options.go`. -/
def defaultModuleOptions : ModuleOptions :=
  { batchTimeout := 5 * timeSecond
    metricInterval := 10 * timeSecond
    sampler := none }

/-- The option-building loop of the `Get*Provider` functions: start from
the defaults and apply every non-nil functional option in order. -/
def buildModuleOptions (opts : List (Option (ModuleOptions → ModuleOptions))) :
    ModuleOptions :=
  opts.foldl (fun o opt => match opt with | some f => f o | none => o)
    defaultModuleOptions

/-- A provider's `Shutdown(ctx)` as invoked on the discard path of the
double-checked re-check: record the call and surface the oracle's
error (which the caller ignores). -/
def providerShutdownCall (ext : Ext) (ctx : GoContext) (tp : Nat)
    (s : ProviderCacheState) : Option String × ProviderCacheState :=
  (ext.providerShutdown tp ctx, { s with closes := s.closes ++ [tp] })

/-- `createTracerProvider` of `tracer.go`: `nil` when no endpoint is
configured; otherwise build the resource, the TLS config and the OTLP
trace exporter (counting the constructor invocation), allocate a fresh
provider and register it as the ambient global. -/
def createTracerProvider (ext : Ext) (cfg : Config) (opts : ModuleOptions)
    (s : ProviderCacheState) : Except String (Option Nat) × ProviderCacheState :=
  let endpoint := cfg.GetOTLPEndpoint
  if endpoint = "" then (Except.ok none, s)
  else
    match ext.resourceNew cfg with
    | Except.error e => (Except.error ("failed to create resource: " ++ e), s)
    | Except.ok _ =>
      match GetTLSConfig ext cfg with
      | Except.error e =>
        (Except.error ("failed to create TLS config: " ++ e), s)
      | Except.ok _ =>
        let s := { s with constructions := s.constructions + 1 }
        match ext.exporterNew cfg with
        | Except.error e =>
          (Except.error ("failed to create OTLP trace exporter: " ++ e), s)
        | Except.ok _ =>
          let _ := opts.batchTimeout
          let tp := s.nextId
          (Except.ok (some tp),
            { s with nextId := s.nextId + 1, globalProvider := some tp })

/-- Lines 51-63 of `tracer.go`: the double-checked re-check under the
lock.  If another caller inserted a provider for this key while the
factory ran, shut the candidate down (error ignored) and return the
existing one; otherwise insert the candidate. -/
def finishTracerGet (ext : Ext) (ctx : GoContext) (serviceName : String)
    (tp : Option Nat) (s : ProviderCacheState) :
    Option Nat × ProviderCacheState :=
  match s.cache.lookup serviceName with
  | some existingTP =>
    match tp with
    | some t =>
      let (_, s) := providerShutdownCall ext ctx t s
      (existingTP, s)
    | none => (existingTP, s)
  | none => (tp, { s with cache := (serviceName, tp) :: s.cache })

/-- `GetTracerProvider` of `tracer.go`: fast path on a cache hit,
otherwise build the options, run the factory (propagating its error
without touching the cache) and finish with the double-checked
insert. -/
def GetTracerProvider (ext : Ext) (ctx : GoContext) (cfg : Config)
    (opts : List (Option (ModuleOptions → ModuleOptions)))
    (s : ProviderCacheState) :
    Except String (Option Nat) × ProviderCacheState :=
  let serviceName := cfg.GetServiceName
  match s.cache.lookup serviceName with
  | some tp => (Except.ok tp, s)
  | none =>
    let options := buildModuleOptions opts
    match createTracerProvider ext cfg options s with
    | (Except.error e, s) => (Except.error e, s)
    | (Except.ok tp, s) =>
      let (r, s) := finishTracerGet ext ctx serviceName tp s
      (Except.ok r, s)

/-- `createMeterProvider` of the meter file: same shape as the trace
factory, with the metric exporter and the periodic reader whose
interval defaults to 10s when the configured one is zero. -/
def createMeterProvider (ext : Ext) (cfg : Config) (opts : ModuleOptions)
    (s : ProviderCacheState) : Except String (Option Nat) × ProviderCacheState :=
  let endpoint := cfg.GetOTLPEndpoint
  if endpoint = "" then (Except.ok none, s)
  else
    match ext.resourceNew cfg with
    | Except.error e => (Except.error ("failed to create resource: " ++ e), s)
    | Except.ok _ =>
      match GetTLSConfig ext cfg with
      | Except.error e =>
        (Except.error ("failed to create TLS config: " ++ e), s)
      | Except.ok _ =>
        let s := { s with constructions := s.constructions + 1 }
        match ext.exporterNew cfg with
        | Except.error e =>
          (Except.error ("failed to create OTLP metric exporter: " ++ e), s)
        | Except.ok _ =>
          let _ := if opts.metricInterval = 0 then 10 * timeSecond
                   else opts.metricInterval
          let mp := s.nextId
          (Except.ok (some mp),
            { s with nextId := s.nextId + 1, globalProvider := some mp })

/-- The double-checked re-check of `GetMeterProvider` (lines 51-63 of
the meter file). -/
def finishMeterGet (ext : Ext) (ctx : GoContext) (serviceName : String)
    (mp : Option Nat) (s : ProviderCacheState) :
    Option Nat × ProviderCacheState :=
  match s.cache.lookup serviceName with
  | some existingMP =>
    match mp with
    | some m =>
      let (_, s) := providerShutdownCall ext ctx m s
      (existingMP, s)
    | none => (existingMP, s)
  | none => (mp, { s with cache := (serviceName, mp) :: s.cache })

/-- `GetMeterProvider` of the meter file. -/
def GetMeterProvider (ext : Ext) (ctx : GoContext) (cfg : Config)
    (opts : List (Option (ModuleOptions → ModuleOptions)))
    (s : ProviderCacheState) :
    Except String (Option Nat) × ProviderCacheState :=
  let serviceName := cfg.GetServiceName
  match s.cache.lookup serviceName with
  | some mp => (Except.ok mp, s)
  | none =>
    let options := buildModuleOptions opts
    match createMeterProvider ext cfg options s with
    | (Except.error e, s) => (Except.error e, s)
    | (Except.ok mp, s) =>
      let (r, s) := finishMeterGet ext ctx serviceName mp s
      (Except.ok r, s)

/-- `createLoggerProvider` of `logging.go`. -/
def createLoggerProvider (ext : Ext) (cfg : Config) (opts : ModuleOptions)
    (s : ProviderCacheState) : Except String (Option Nat) × ProviderCacheState :=
  let endpoint := cfg.GetOTLPEndpoint
  if endpoint = "" then (Except.ok none, s)
  else
    match ext.resourceNew cfg with
    | Except.error e => (Except.error ("failed to create resource: " ++ e), s)
    | Except.ok _ =>
      match GetTLSConfig ext cfg with
      | Except.error e =>
        (Except.error ("failed to create TLS config: " ++ e), s)
      | Except.ok _ =>
        let s := { s with constructions := s.constructions + 1 }
        match ext.exporterNew cfg with
        | Except.error e =>
          (Except.error ("failed to create OTLP log exporter: " ++ e), s)
        | Except.ok _ =>
          let _ := opts
          let lp := s.nextId
          (Except.ok (some lp),
            { s with nextId := s.nextId + 1, globalProvider := some lp })

/-- The double-checked re-check of `GetLoggerProvider` (lines 50-62 of
`logging.go`). -/
def finishLoggerGet (ext : Ext) (ctx : GoContext) (serviceName : String)
    (lp : Option Nat) (s : ProviderCacheState) :
    Option Nat × ProviderCacheState :=
  match s.cache.lookup serviceName with
  | some existingLP =>
    match lp with
    | some l =>
      let (_, s) := providerShutdownCall ext ctx l s
      (existingLP, s)
    | none => (existingLP, s)
  | none => (lp, { s with cache := (serviceName, lp) :: s.cache })

/-- `GetLoggerProvider` of `logging.go`. -/
def GetLoggerProvider (ext : Ext) (ctx : GoContext) (cfg : Config)
    (opts : List (Option (ModuleOptions → ModuleOptions)))
    (s : ProviderCacheState) :
    Except String (Option Nat) × ProviderCacheState :=
  let serviceName := cfg.GetServiceName
  match s.cache.lookup serviceName with
  | some lp => (Except.ok lp, s)
  | none =>
    let options := buildModuleOptions opts
    match createLoggerProvider ext cfg options s with
    | (Except.error e, s) => (Except.error e, s)
    | (Except.ok lp, s) =>
      let (r, s) := finishLoggerGet ext ctx serviceName lp s
      (Except.ok r, s)

/-! ## Shutdown helpers and cache clearing -/

/-- `ShutdownTracerProvider` of `tracer.go`: a `nil` provider is a
no-op with no error; otherwise `Shutdown` runs under a context derived
by `context.WithTimeout(ctx, 5*time.Second)`, and the call is recorded
in the given close log. -/
def ShutdownTracerProvider (ext : Ext) (ctx : GoContext) (now : Nat)
    (tp : Option Nat) (closes : List Nat) : Option String × List Nat :=
  match tp with
  | none => (none, closes)
  | some t =>
    let shutdownCtx := withTimeout ctx now (5 * timeSecond)
    (ext.providerShutdown t shutdownCtx, closes ++ [t])

/-- `ShutdownMeterProvider` of the meter file. -/
def ShutdownMeterProvider (ext : Ext) (ctx : GoContext) (now : Nat)
    (mp : Option Nat) (closes : List Nat) : Option String × List Nat :=
  match mp with
  | none => (none, closes)
  | some m =>
    let shutdownCtx := withTimeout ctx now (5 * timeSecond)
    (ext.providerShutdown m shutdownCtx, closes ++ [m])

/-- `ShutdownLoggerProvider` of `logging.go`. -/
def ShutdownLoggerProvider (ext : Ext) (ctx : GoContext) (now : Nat)
    (lp : Option Nat) (closes : List Nat) : Option String × List Nat :=
  match lp with
  | none => (none, closes)
  | some l =>
    let shutdownCtx := withTimeout ctx now (5 * timeSecond)
    (ext.providerShutdown l shutdownCtx, closes ++ [l])

/-- `ClearTracerProviderCache` of `tracer.go`: replace the map by a
fresh empty one; nothing else of the state is touched (in particular no
`Shutdown` is issued). -/
def ClearTracerProviderCache (s : ProviderCacheState) : ProviderCacheState :=
  { s with cache := [] }

/-- `ClearMeterProviderCache` of the meter file. -/
def ClearMeterProviderCache (s : ProviderCacheState) : ProviderCacheState :=
  { s with cache := [] }

/-- `ClearLoggerProviderCache` of `logging.go`. -/
def ClearLoggerProviderCache (s : ProviderCacheState) : ProviderCacheState :=
  { s with cache := [] }

/-! ## The fx lifecycle stop hook (`module.go`) -/

/-- The tracer-provider and meter-provider fields of `TracingModule`. -/
structure TracingModule where
  tracerProvider : Option Nat
  meterProvider : Option Nat
deriving Repr, DecidableEq

/-- The `OnStop` closure registered by `registerLifecycleHooks` (lines
107-129 of `module.go`): shut down the tracer provider if present,
discarding its error, then the meter provider likewise, and return
`nil`.  The two close logs record the `Shutdown` calls issued. -/
def registerLifecycleHooksOnStop (ext : Ext) (ctx : GoContext) (now : Nat)
    (tm : TracingModule) (tracerCloses meterCloses : List Nat) :
    Option String × List Nat × List Nat :=
  let tracerCloses1 :=
    match tm.tracerProvider with
    | some _ =>
      let (err, cl) :=
        ShutdownTracerProvider ext ctx now tm.tracerProvider tracerCloses
      let _ := err
      cl
    | none => tracerCloses
  let meterCloses1 :=
    match tm.meterProvider with
    | some _ =>
      let (err, cl) :=
        ShutdownMeterProvider ext ctx now tm.meterProvider meterCloses
      let _ := err
      cl
    | none => meterCloses
  (none, tracerCloses1, meterCloses1)

/-! ## Concrete fixtures -/

/-- External oracle on which every collaborator succeeds and every
shutdown reports no error. -/
def extOK : Ext :=
  { x509KeyPair := fun _ _ => Except.ok ()
    appendCertsFromPEM := fun _ => true
    resourceNew := fun _ => Except.ok ()
    exporterNew := fun _ => Except.ok ()
    providerShutdown := fun _ _ => none }

/-- Oracle whose CA pool rejects every PEM block. -/
def extCAReject : Ext := { extOK with appendCertsFromPEM := fun _ => false }

/-- Oracle whose exporter constructor fails. -/
def extExporterFail : Ext :=
  { extOK with exporterNew := fun _ => Except.error "connection refused" }

/-- A background context with no deadline. -/
def ctx0 : GoContext := ⟨none⟩

/-- The initial, empty cache state. -/
def state0 : ProviderCacheState := {}

/-- Service `svc-a`, export disabled (empty endpoint). -/
def cfgDisabledA : Config := ⟨"svc-a", "", "", false, "", "", ""⟩

/-- Service `svc-a`, exporting to a collector. -/
def cfgLiveA : Config := ⟨"svc-a", "", "collector:4318", false, "", "", ""⟩

/-- Invalid base64 certificate with an empty key field. -/
def cfgBadCertOnly : Config := ⟨"svc-a", "", "collector:4318", false, "!!!", "", ""⟩

/-- Invalid base64 certificate paired with a decodable key. -/
def cfgBadCertPair : Config :=
  ⟨"svc-a", "", "collector:4318", false, "!!!", "aGVsbG8=", ""⟩

/-- Decodable certificate paired with an invalid base64 key. -/
def cfgBadKeyPair : Config :=
  ⟨"svc-a", "", "collector:4318", false, "aGVsbG8=", "!!!", ""⟩

/-- Invalid base64 CA, no client material. -/
def cfgBadCAOnly : Config := ⟨"svc-a", "", "collector:4318", false, "", "", "!!!"⟩

/-- Decodable CA, no client material. -/
def cfgGoodCAOnly : Config :=
  ⟨"svc-a", "", "collector:4318", false, "", "", "aGVsbG8="⟩

/-! ## Helper lemmas on the TLS loading steps -/

/-- With an empty CA field the CA step is the identity. -/
theorem loadCAStep_empty (ext : Ext) (t : TLSConfig) :
    loadCAStep ext "" t = Except.ok t := by
  simp [loadCAStep]

/-- With a non-empty CA field the CA step decodes and appends. -/
theorem loadCAStep_nonempty (ext : Ext) (ca : String) (hca : ca ≠ "")
    (t : TLSConfig) :
    loadCAStep ext ca t =
      match base64DecodeString ca with
      | Except.error e =>
        Except.error ("failed to decode TLS CA certificate: " ++ e)
      | Except.ok caPEM =>
        if ext.appendCertsFromPEM caPEM then
          Except.ok { t with rootCAs := some [caPEM] }
        else Except.error "failed to parse TLS CA certificate" := by
  simp [loadCAStep, hca]

/-- When one of the certificate and key fields is empty the client
certificate step is the identity. -/
theorem loadClientCertStep_skipped (ext : Ext) (a b : String)
    (h : a = "" ∨ b = "") (t : TLSConfig) :
    loadClientCertStep ext a b t = Except.ok t := by
  have : ¬(a ≠ "" ∧ b ≠ "") := by
    rcases h with h | h <;> simp [h]
  simp [loadClientCertStep, this]

/-- A successful client certificate step never changes the minimum
version or the CA pool. -/
theorem loadClientCertStep_ok_fields (ext : Ext) (a b : String)
    (t t' : TLSConfig) (h : loadClientCertStep ext a b t = Except.ok t') :
    t'.minVersion = t.minVersion ∧ t'.rootCAs = t.rootCAs := by
  unfold loadClientCertStep at h
  split at h
  · split at h
    · exact absurd h (by simp)
    · split at h
      · exact absurd h (by simp)
      · split at h
        · exact absurd h (by simp)
        · injection h with h
          subst h
          exact ⟨rfl, rfl⟩
  · injection h with h
    subst h
    exact ⟨rfl, rfl⟩

/-- A successful CA step never changes the minimum version or the
client certificate list. -/
theorem loadCAStep_ok_fields (ext : Ext) (ca : String) (t t' : TLSConfig)
    (h : loadCAStep ext ca t = Except.ok t') :
    t'.minVersion = t.minVersion ∧ t'.certificates = t.certificates := by
  unfold loadCAStep at h
  split at h
  · split at h
    · exact absurd h (by simp)
    · split at h
      · injection h with h
        subst h
        exact ⟨rfl, rfl⟩
      · exact absurd h (by simp)
  · injection h with h
    subst h
    exact ⟨rfl, rfl⟩

/-- `GetTLSConfig` on a config with no TLS material at all. -/
theorem getTLSConfig_all_empty (ext : Ext) (cfg : Config)
    (h : cfg.GetOTLPTLSCert = "" ∧ cfg.GetOTLPTLSKey = "" ∧
      cfg.GetOTLPTLSCA = "") :
    GetTLSConfig ext cfg = Except.ok none := by
  simp [GetTLSConfig, h.1, h.2.1, h.2.2]

/-- `GetTLSConfig` on a config with some TLS material: the client
certificate step followed by the CA step, from a TLS 1.2 base. -/
theorem getTLSConfig_not_all_empty (ext : Ext) (cfg : Config)
    (h : ¬(cfg.GetOTLPTLSCert = "" ∧ cfg.GetOTLPTLSKey = "" ∧
      cfg.GetOTLPTLSCA = "")) :
    GetTLSConfig ext cfg =
      match loadClientCertStep ext cfg.GetOTLPTLSCert cfg.GetOTLPTLSKey
          { minVersion := VersionTLS12 } with
      | Except.error e => Except.error e
      | Except.ok tlsConfig =>
        match loadCAStep ext cfg.GetOTLPTLSCA tlsConfig with
        | Except.error e => Except.error e
        | Except.ok tlsConfig => Except.ok (some tlsConfig) := by
  simp only [GetTLSConfig, if_neg h]

/-- `GetTLSConfig` once the client-certificate step has produced `t`:
only the CA step remains. -/
theorem getTLSConfig_after_client (ext : Ext) (cfg : Config)
    (hne : ¬(cfg.GetOTLPTLSCert = "" ∧ cfg.GetOTLPTLSKey = "" ∧
      cfg.GetOTLPTLSCA = "")) (t : TLSConfig)
    (hcc : loadClientCertStep ext cfg.GetOTLPTLSCert cfg.GetOTLPTLSKey
      { minVersion := VersionTLS12 } = Except.ok t) :
    GetTLSConfig ext cfg =
      match loadCAStep ext cfg.GetOTLPTLSCA t with
      | Except.error e => Except.error e
      | Except.ok tlsConfig => Except.ok (some tlsConfig) := by
  rw [getTLSConfig_not_all_empty ext cfg hne, hcc]

/-! ## C10 -/

/-- C10: `GetTLSConfig` returns a nil TLS config and nil error exactly
when the cert, key and CA fields are all empty; in every other case
where it succeeds the returned TLS config is non-nil and has minimum
TLS version 1.2. -/
theorem getTLSConfig_none_iff_all_empty (ext : Ext) (cfg : Config) :
    (GetTLSConfig ext cfg = Except.ok none ↔
      cfg.GetOTLPTLSCert = "" ∧ cfg.GetOTLPTLSKey = "" ∧
        cfg.GetOTLPTLSCA = "") ∧
    ∀ t, GetTLSConfig ext cfg = Except.ok (some t) →
      t.minVersion = VersionTLS12 := by
  by_cases h : cfg.GetOTLPTLSCert = "" ∧ cfg.GetOTLPTLSKey = "" ∧
      cfg.GetOTLPTLSCA = ""
  · refine ⟨⟨fun _ => h, fun _ => getTLSConfig_all_empty ext cfg h⟩, ?_⟩
    intro t ht
    rw [getTLSConfig_all_empty ext cfg h] at ht
    exact absurd ht (by simp)
  · rw [getTLSConfig_not_all_empty ext cfg h]
    constructor
    · constructor
      · intro heq
        exfalso
        split at heq
        · exact absurd heq (by simp)
        · split at heq
          · exact absurd heq (by simp)
          · exact absurd heq (by simp)
      · intro hh
        exact absurd hh h
    · intro t ht
      split at ht
      · exact absurd ht (by simp)
      next t1 h1 =>
        split at ht
        · exact absurd ht (by simp)
        next t2 h2 =>
          have ht2 : t2 = t := by
            have := ht
            injection this with this
            injection this
          subst ht2
          have e1 := (loadClientCertStep_ok_fields ext _ _ _ _ h1).1
          have e2 := (loadCAStep_ok_fields ext _ _ _ h2).1
          rw [e2, e1]

/-- C10 witness: the disabled config yields `nil`, and a CA-only config
yields a TLS 1.2 config. -/
theorem getTLSConfig_none_iff_all_empty_witness :
    GetTLSConfig extOK cfgDisabledA = Except.ok none ∧
    (⟨VersionTLS12, [], some [[104, 101, 108, 108, 111]]⟩ :
      TLSConfig).minVersion = VersionTLS12 :=
  ⟨(getTLSConfig_none_iff_all_empty extOK cfgDisabledA).1.mpr ⟨rfl, rfl, rfl⟩,
   (getTLSConfig_none_iff_all_empty extOK cfgGoodCAOnly).2 _ rfl⟩

/-! ## C9 -/

/-- C9: `GetTLSConfig` loads a client certificate only when both the
cert and the key field are non-empty; when exactly one of the two is
provided it is silently ignored: no error arises from it, the result
carries no client certificate, and only the CA field is still
processed. -/
theorem getTLSConfig_single_sided_ignored (ext : Ext) (cfg : Config)
    (h : (cfg.GetOTLPTLSCert = "" ∧ cfg.GetOTLPTLSKey ≠ "") ∨
         (cfg.GetOTLPTLSCert ≠ "" ∧ cfg.GetOTLPTLSKey = "")) :
    GetTLSConfig ext cfg =
      Except.map some
        (loadCAStep ext cfg.GetOTLPTLSCA { minVersion := VersionTLS12 }) ∧
    (∀ t, GetTLSConfig ext cfg = Except.ok (some t) → t.certificates = []) ∧
    (cfg.GetOTLPTLSCA = "" →
      GetTLSConfig ext cfg = Except.ok (some { minVersion := VersionTLS12 })) := by
  have hor : cfg.GetOTLPTLSCert = "" ∨ cfg.GetOTLPTLSKey = "" := by
    rcases h with ⟨h1, _⟩ | ⟨_, h2⟩
    · exact Or.inl h1
    · exact Or.inr h2
  have hne : ¬(cfg.GetOTLPTLSCert = "" ∧ cfg.GetOTLPTLSKey = "" ∧
      cfg.GetOTLPTLSCA = "") := by
    rcases h with ⟨h1, h2⟩ | ⟨h1, h2⟩
    · intro hc
      exact h2 hc.2.1
    · intro hc
      exact h1 hc.1
  have hskip := loadClientCertStep_skipped ext cfg.GetOTLPTLSCert
    cfg.GetOTLPTLSKey hor ({ minVersion := VersionTLS12 } : TLSConfig)
  have hmain : GetTLSConfig ext cfg =
      Except.map some
        (loadCAStep ext cfg.GetOTLPTLSCA { minVersion := VersionTLS12 }) := by
    rw [getTLSConfig_after_client ext cfg hne _ hskip]
    cases hca : loadCAStep ext cfg.GetOTLPTLSCA
        ({ minVersion := VersionTLS12 } : TLSConfig) with
    | error e => rfl
    | ok t2 => rfl
  refine ⟨hmain, ?_, ?_⟩
  · intro t ht
    rw [hmain] at ht
    cases hca : loadCAStep ext cfg.GetOTLPTLSCA
        ({ minVersion := VersionTLS12 } : TLSConfig) with
    | error e =>
      rw [hca] at ht
      exact absurd ht (by simp [Except.map])
    | ok t2 =>
      rw [hca] at ht
      simp [Except.map] at ht
      subst ht
      exact (loadCAStep_ok_fields ext _ _ _ hca).2
  · intro hca
    rw [hmain, hca, loadCAStep_empty]
    rfl

/-- C9 witness: a non-empty invalid certificate field with an empty key
field is ignored and yields the plain TLS 1.2 config. -/
theorem getTLSConfig_single_sided_ignored_witness :
    GetTLSConfig extOK cfgBadCertOnly =
      Except.ok (some { minVersion := VersionTLS12 }) :=
  (getTLSConfig_single_sided_ignored extOK cfgBadCertOnly
    (Or.inr ⟨by decide, rfl⟩)).2.2 rfl

/-! ## C4 -/

/-- C4 counterexample: feeding the invalid base64 string `!!!` as the
TLS certificate field (with an empty key field) yields no error at all
— `GetTLSConfig` succeeds and silently ignores the certificate — so the
claim that an invalid base64 certificate always yields an error naming
the certificate fails as stated. -/
theorem getTLSConfig_badCert_emptyKey_no_error :
    base64DecodeString "!!!" =
      Except.error "illegal base64 data at input byte 0" ∧
    GetTLSConfig extOK cfgBadCertOnly =
      Except.ok (some { minVersion := VersionTLS12 }) :=
  ⟨rfl, rfl⟩

/-- C4 (amended): whenever both the cert and the key field are
non-empty, an undecodable certificate yields the error naming the
certificate and an undecodable key (with a decodable certificate)
yields the error naming the key; whenever the client-certificate step
passes and the CA field is non-empty, an undecodable or unparseable CA
yields the error naming the CA certificate. -/
theorem getTLSConfig_error_names_artifact (ext : Ext) (cfg : Config) :
    (∀ e, cfg.GetOTLPTLSCert ≠ "" → cfg.GetOTLPTLSKey ≠ "" →
      base64DecodeString cfg.GetOTLPTLSCert = Except.error e →
      GetTLSConfig ext cfg =
        Except.error ("failed to decode TLS certificate: " ++ e)) ∧
    (∀ certPEM e, cfg.GetOTLPTLSCert ≠ "" → cfg.GetOTLPTLSKey ≠ "" →
      base64DecodeString cfg.GetOTLPTLSCert = Except.ok certPEM →
      base64DecodeString cfg.GetOTLPTLSKey = Except.error e →
      GetTLSConfig ext cfg =
        Except.error ("failed to decode TLS key: " ++ e)) ∧
    (∀ t e, loadClientCertStep ext cfg.GetOTLPTLSCert cfg.GetOTLPTLSKey
        { minVersion := VersionTLS12 } = Except.ok t →
      cfg.GetOTLPTLSCA ≠ "" →
      base64DecodeString cfg.GetOTLPTLSCA = Except.error e →
      GetTLSConfig ext cfg =
        Except.error ("failed to decode TLS CA certificate: " ++ e)) ∧
    (∀ t caPEM, loadClientCertStep ext cfg.GetOTLPTLSCert cfg.GetOTLPTLSKey
        { minVersion := VersionTLS12 } = Except.ok t →
      cfg.GetOTLPTLSCA ≠ "" →
      base64DecodeString cfg.GetOTLPTLSCA = Except.ok caPEM →
      ext.appendCertsFromPEM caPEM = false →
      GetTLSConfig ext cfg =
        Except.error "failed to parse TLS CA certificate") := by
  refine ⟨?_, ?_, ?_, ?_⟩
  · intro e hcert hkey hdec
    have hne : ¬(cfg.GetOTLPTLSCert = "" ∧ cfg.GetOTLPTLSKey = "" ∧
        cfg.GetOTLPTLSCA = "") := fun hc => hcert hc.1
    have hcc : loadClientCertStep ext cfg.GetOTLPTLSCert cfg.GetOTLPTLSKey
        { minVersion := VersionTLS12 } =
        Except.error ("failed to decode TLS certificate: " ++ e) := by
      simp [loadClientCertStep, hcert, hkey, hdec]
    rw [getTLSConfig_not_all_empty ext cfg hne, hcc]
  · intro certPEM e hcert hkey hdec1 hdec2
    have hne : ¬(cfg.GetOTLPTLSCert = "" ∧ cfg.GetOTLPTLSKey = "" ∧
        cfg.GetOTLPTLSCA = "") := fun hc => hcert hc.1
    have hcc : loadClientCertStep ext cfg.GetOTLPTLSCert cfg.GetOTLPTLSKey
        { minVersion := VersionTLS12 } =
        Except.error ("failed to decode TLS key: " ++ e) := by
      simp [loadClientCertStep, hcert, hkey, hdec1, hdec2]
    rw [getTLSConfig_not_all_empty ext cfg hne, hcc]
  · intro t e hcc hca hdec
    have hne : ¬(cfg.GetOTLPTLSCert = "" ∧ cfg.GetOTLPTLSKey = "" ∧
        cfg.GetOTLPTLSCA = "") := fun hc => hca hc.2.2
    rw [getTLSConfig_after_client ext cfg hne t hcc,
      loadCAStep_nonempty ext _ hca, hdec]
  · intro t caPEM hcc hca hdec hap
    have hne : ¬(cfg.GetOTLPTLSCert = "" ∧ cfg.GetOTLPTLSKey = "" ∧
        cfg.GetOTLPTLSCA = "") := fun hc => hca hc.2.2
    rw [getTLSConfig_after_client ext cfg hne t hcc,
      loadCAStep_nonempty ext _ hca, hdec]
    simp [hap]

/-- C4 (amended) witness: each artifact produces its own error message
on concrete malformed inputs. -/
theorem getTLSConfig_error_names_artifact_witness :
    GetTLSConfig extOK cfgBadCertPair =
      Except.error
        "failed to decode TLS certificate: illegal base64 data at input byte 0" ∧
    GetTLSConfig extOK cfgBadKeyPair =
      Except.error
        "failed to decode TLS key: illegal base64 data at input byte 0" ∧
    GetTLSConfig extOK cfgBadCAOnly =
      Except.error
        "failed to decode TLS CA certificate: illegal base64 data at input byte 0" ∧
    GetTLSConfig extCAReject cfgGoodCAOnly =
      Except.error "failed to parse TLS CA certificate" := by
  refine ⟨?_, ?_, ?_, ?_⟩
  · exact (getTLSConfig_error_names_artifact extOK cfgBadCertPair).1 _
      (by decide) (by decide) rfl
  · exact (getTLSConfig_error_names_artifact extOK cfgBadKeyPair).2.1 _ _
      (by decide) (by decide) rfl rfl
  · exact (getTLSConfig_error_names_artifact extOK cfgBadCAOnly).2.2.1 _ _
      rfl (by decide) rfl
  · exact (getTLSConfig_error_names_artifact extCAReject cfgGoodCAOnly).2.2.2
      _ _ rfl (by decide) rfl rfl

/-! ## Equation lemmas for the provider cache -/

/-- The trace factory never touches the cache map. -/
theorem createTracerProvider_cache (ext : Ext) (cfg : Config)
    (opts : ModuleOptions) (s : ProviderCacheState) :
    ((createTracerProvider ext cfg opts s).2).cache = s.cache := by
  by_cases he : cfg.GetOTLPEndpoint = ""
  · simp [createTracerProvider, he]
  · cases hr : ext.resourceNew cfg <;>
      cases ht : GetTLSConfig ext cfg <;>
        cases hx : ext.exporterNew cfg <;>
          simp [createTracerProvider, he, hr, ht, hx]

/-- The metric factory never touches the cache map. -/
theorem createMeterProvider_cache (ext : Ext) (cfg : Config)
    (opts : ModuleOptions) (s : ProviderCacheState) :
    ((createMeterProvider ext cfg opts s).2).cache = s.cache := by
  by_cases he : cfg.GetOTLPEndpoint = ""
  · simp [createMeterProvider, he]
  · cases hr : ext.resourceNew cfg <;>
      cases ht : GetTLSConfig ext cfg <;>
        cases hx : ext.exporterNew cfg <;>
          simp [createMeterProvider, he, hr, ht, hx]

/-- The log factory never touches the cache map. -/
theorem createLoggerProvider_cache (ext : Ext) (cfg : Config)
    (opts : ModuleOptions) (s : ProviderCacheState) :
    ((createLoggerProvider ext cfg opts s).2).cache = s.cache := by
  by_cases he : cfg.GetOTLPEndpoint = ""
  · simp [createLoggerProvider, he]
  · cases hr : ext.resourceNew cfg <;>
      cases ht : GetTLSConfig ext cfg <;>
        cases hx : ext.exporterNew cfg <;>
          simp [createLoggerProvider, he, hr, ht, hx]

/-- With an empty endpoint every factory returns the nil provider and
leaves the state untouched. -/
theorem createProvider_disabled (ext : Ext) (cfg : Config)
    (opts : ModuleOptions) (s : ProviderCacheState)
    (he : cfg.GetOTLPEndpoint = "") :
    createTracerProvider ext cfg opts s = (Except.ok none, s) ∧
    createMeterProvider ext cfg opts s = (Except.ok none, s) ∧
    createLoggerProvider ext cfg opts s = (Except.ok none, s) := by
  refine ⟨?_, ?_, ?_⟩ <;>
    simp [createTracerProvider, createMeterProvider, createLoggerProvider, he]

/-- With a non-empty endpoint and succeeding collaborators the trace
factory allocates a fresh provider, counts one exporter construction
and registers the ambient global. -/
theorem createTracerProvider_success (ext : Ext) (cfg : Config)
    (opts : ModuleOptions) (s : ProviderCacheState)
    (he : cfg.GetOTLPEndpoint ≠ "")
    (hr : ext.resourceNew cfg = Except.ok ())
    (ht : ∃ t, GetTLSConfig ext cfg = Except.ok t)
    (hx : ext.exporterNew cfg = Except.ok ()) :
    createTracerProvider ext cfg opts s =
      (Except.ok (some s.nextId),
        { s with
            constructions := s.constructions + 1,
            nextId := s.nextId + 1,
            globalProvider := some s.nextId }) := by
  obtain ⟨t, ht⟩ := ht
  simp [createTracerProvider, he, hr, ht, hx]

/-- Cache-hit fast path of `GetTracerProvider`. -/
theorem getTracerProvider_hit (ext : Ext) (ctx : GoContext) (cfg : Config)
    (opts : List (Option (ModuleOptions → ModuleOptions)))
    (s : ProviderCacheState) (tp : Option Nat)
    (h : s.cache.lookup cfg.GetServiceName = some tp) :
    GetTracerProvider ext ctx cfg opts s = (Except.ok tp, s) := by
  simp [GetTracerProvider, h]

/-- Cache-miss path of `GetTracerProvider` when the factory fails. -/
theorem getTracerProvider_miss_error (ext : Ext) (ctx : GoContext)
    (cfg : Config) (opts : List (Option (ModuleOptions → ModuleOptions)))
    (s s1 : ProviderCacheState) (e : String)
    (h : s.cache.lookup cfg.GetServiceName = none)
    (hc : createTracerProvider ext cfg (buildModuleOptions opts) s =
      (Except.error e, s1)) :
    GetTracerProvider ext ctx cfg opts s = (Except.error e, s1) := by
  simp [GetTracerProvider, h, hc]

/-- Cache-miss path of `GetTracerProvider` when the factory succeeds. -/
theorem getTracerProvider_miss_ok (ext : Ext) (ctx : GoContext)
    (cfg : Config) (opts : List (Option (ModuleOptions → ModuleOptions)))
    (s s1 : ProviderCacheState) (tp : Option Nat)
    (h : s.cache.lookup cfg.GetServiceName = none)
    (hc : createTracerProvider ext cfg (buildModuleOptions opts) s =
      (Except.ok tp, s1)) :
    GetTracerProvider ext ctx cfg opts s =
      (Except.ok (finishTracerGet ext ctx cfg.GetServiceName tp s1).1,
        (finishTracerGet ext ctx cfg.GetServiceName tp s1).2) := by
  simp [GetTracerProvider, h, hc]

/-- The double-checked re-check inserts the candidate on a re-miss. -/
theorem finishTracerGet_miss (ext : Ext) (ctx : GoContext) (k : String)
    (tp : Option Nat) (s : ProviderCacheState)
    (h : s.cache.lookup k = none) :
    finishTracerGet ext ctx k tp s = (tp, { s with cache := (k, tp) :: s.cache }) := by
  simp [finishTracerGet, h]

/-- The double-checked re-check discards a non-nil losing candidate
with exactly one shutdown call and returns the existing entry. -/
theorem finishTracerGet_hit_some (ext : Ext) (ctx : GoContext) (k : String)
    (t : Nat) (s : ProviderCacheState) (existing : Option Nat)
    (h : s.cache.lookup k = some existing) :
    finishTracerGet ext ctx k (some t) s =
      (existing, { s with closes := s.closes ++ [t] }) := by
  simp [finishTracerGet, providerShutdownCall, h]

/-- Cache-hit fast path of `GetMeterProvider`. -/
theorem getMeterProvider_hit (ext : Ext) (ctx : GoContext) (cfg : Config)
    (opts : List (Option (ModuleOptions → ModuleOptions)))
    (s : ProviderCacheState) (mp : Option Nat)
    (h : s.cache.lookup cfg.GetServiceName = some mp) :
    GetMeterProvider ext ctx cfg opts s = (Except.ok mp, s) := by
  simp [GetMeterProvider, h]

/-- Cache-miss path of `GetMeterProvider` when the factory fails. -/
theorem getMeterProvider_miss_error (ext : Ext) (ctx : GoContext)
    (cfg : Config) (opts : List (Option (ModuleOptions → ModuleOptions)))
    (s s1 : ProviderCacheState) (e : String)
    (h : s.cache.lookup cfg.GetServiceName = none)
    (hc : createMeterProvider ext cfg (buildModuleOptions opts) s =
      (Except.error e, s1)) :
    GetMeterProvider ext ctx cfg opts s = (Except.error e, s1) := by
  simp [GetMeterProvider, h, hc]

/-- Cache-miss path of `GetMeterProvider` when the factory succeeds. -/
theorem getMeterProvider_miss_ok (ext : Ext) (ctx : GoContext)
    (cfg : Config) (opts : List (Option (ModuleOptions → ModuleOptions)))
    (s s1 : ProviderCacheState) (mp : Option Nat)
    (h : s.cache.lookup cfg.GetServiceName = none)
    (hc : createMeterProvider ext cfg (buildModuleOptions opts) s =
      (Except.ok mp, s1)) :
    GetMeterProvider ext ctx cfg opts s =
      (Except.ok (finishMeterGet ext ctx cfg.GetServiceName mp s1).1,
        (finishMeterGet ext ctx cfg.GetServiceName mp s1).2) := by
  simp [GetMeterProvider, h, hc]

/-- The meter re-check inserts the candidate on a re-miss. -/
theorem finishMeterGet_miss (ext : Ext) (ctx : GoContext) (k : String)
    (mp : Option Nat) (s : ProviderCacheState)
    (h : s.cache.lookup k = none) :
    finishMeterGet ext ctx k mp s = (mp, { s with cache := (k, mp) :: s.cache }) := by
  simp [finishMeterGet, h]

/-- The meter re-check discards a non-nil losing candidate with exactly
one shutdown call and returns the existing entry. -/
theorem finishMeterGet_hit_some (ext : Ext) (ctx : GoContext) (k : String)
    (m : Nat) (s : ProviderCacheState) (existing : Option Nat)
    (h : s.cache.lookup k = some existing) :
    finishMeterGet ext ctx k (some m) s =
      (existing, { s with closes := s.closes ++ [m] }) := by
  simp [finishMeterGet, providerShutdownCall, h]

/-- Cache-hit fast path of `GetLoggerProvider`. -/
theorem getLoggerProvider_hit (ext : Ext) (ctx : GoContext) (cfg : Config)
    (opts : List (Option (ModuleOptions → ModuleOptions)))
    (s : ProviderCacheState) (lp : Option Nat)
    (h : s.cache.lookup cfg.GetServiceName = some lp) :
    GetLoggerProvider ext ctx cfg opts s = (Except.ok lp, s) := by
  simp [GetLoggerProvider, h]

/-- Cache-miss path of `GetLoggerProvider` when the factory succeeds. -/
theorem getLoggerProvider_miss_ok (ext : Ext) (ctx : GoContext)
    (cfg : Config) (opts : List (Option (ModuleOptions → ModuleOptions)))
    (s s1 : ProviderCacheState) (lp : Option Nat)
    (h : s.cache.lookup cfg.GetServiceName = none)
    (hc : createLoggerProvider ext cfg (buildModuleOptions opts) s =
      (Except.ok lp, s1)) :
    GetLoggerProvider ext ctx cfg opts s =
      (Except.ok (finishLoggerGet ext ctx cfg.GetServiceName lp s1).1,
        (finishLoggerGet ext ctx cfg.GetServiceName lp s1).2) := by
  simp [GetLoggerProvider, h, hc]

/-- The logger re-check inserts the candidate on a re-miss. -/
theorem finishLoggerGet_miss (ext : Ext) (ctx : GoContext) (k : String)
    (lp : Option Nat) (s : ProviderCacheState)
    (h : s.cache.lookup k = none) :
    finishLoggerGet ext ctx k lp s = (lp, { s with cache := (k, lp) :: s.cache }) := by
  simp [finishLoggerGet, h]

/-! ## C2 -/

/-- C2: for a key not yet cached, a `get` with an empty endpoint
returns the Disabled (nil) provider with no error, never invokes the
exporter constructor, and memoizes the disabled outcome under the key,
so that every subsequent call for the same key hits the cache fast
path, returns nil again and does not re-run the factory — for the
tracer and the logger cache alike. -/
theorem getProvider_disabled_memoized (ext : Ext) (ctx : GoContext)
    (cfg : Config) (opts : List (Option (ModuleOptions → ModuleOptions)))
    (sT sL : ProviderCacheState)
    (he : cfg.GetOTLPEndpoint = "")
    (hT : sT.cache.lookup cfg.GetServiceName = none)
    (hL : sL.cache.lookup cfg.GetServiceName = none) :
    (GetTracerProvider ext ctx cfg opts sT =
      (Except.ok none,
        { sT with cache := (cfg.GetServiceName, none) :: sT.cache }) ∧
    (GetTracerProvider ext ctx cfg opts sT).2.constructions =
      sT.constructions ∧
    ∀ cfg2 : Config, cfg2.GetServiceName = cfg.GetServiceName →
      GetTracerProvider ext ctx cfg2 opts
          { sT with cache := (cfg.GetServiceName, none) :: sT.cache } =
        (Except.ok none,
          { sT with cache := (cfg.GetServiceName, none) :: sT.cache })) ∧
    (GetLoggerProvider ext ctx cfg opts sL =
      (Except.ok none,
        { sL with cache := (cfg.GetServiceName, none) :: sL.cache }) ∧
    (GetLoggerProvider ext ctx cfg opts sL).2.constructions =
      sL.constructions ∧
    ∀ cfg2 : Config, cfg2.GetServiceName = cfg.GetServiceName →
      GetLoggerProvider ext ctx cfg2 opts
          { sL with cache := (cfg.GetServiceName, none) :: sL.cache } =
        (Except.ok none,
          { sL with cache := (cfg.GetServiceName, none) :: sL.cache })) := by
  have hdisT := (createProvider_disabled ext cfg (buildModuleOptions opts) sT he).1
  have hdisL := (createProvider_disabled ext cfg (buildModuleOptions opts) sL he).2.2
  have h1 : GetTracerProvider ext ctx cfg opts sT =
      (Except.ok none,
        { sT with cache := (cfg.GetServiceName, none) :: sT.cache }) := by
    rw [getTracerProvider_miss_ok ext ctx cfg opts sT sT none hT hdisT,
      finishTracerGet_miss ext ctx _ none sT hT]
  have h2 : GetLoggerProvider ext ctx cfg opts sL =
      (Except.ok none,
        { sL with cache := (cfg.GetServiceName, none) :: sL.cache }) := by
    rw [getLoggerProvider_miss_ok ext ctx cfg opts sL sL none hL hdisL,
      finishLoggerGet_miss ext ctx _ none sL hL]
  refine ⟨⟨h1, by rw [h1], ?_⟩, h2, by rw [h2], ?_⟩
  · intro cfg2 hk
    exact getTracerProvider_hit ext ctx cfg2 opts _ none (by simp [List.lookup, hk])
  · intro cfg2 hk
    exact getLoggerProvider_hit ext ctx cfg2 opts _ none (by simp [List.lookup, hk])

/-- C2 witness: on a fresh cache, the disabled config is served from
the factory once and from the cache afterwards, with zero exporter
constructions. -/
theorem getProvider_disabled_memoized_witness :
    GetTracerProvider extOK ctx0 cfgDisabledA [] state0 =
      (Except.ok none, { state0 with cache := [("svc-a", none)] }) ∧
    GetLoggerProvider extOK ctx0 cfgDisabledA [] state0 =
      (Except.ok none, { state0 with cache := [("svc-a", none)] }) := by
  have h := getProvider_disabled_memoized extOK ctx0 cfgDisabledA [] state0
    state0 rfl rfl rfl
  exact ⟨h.1.1, h.2.1⟩

/-! ## C1 -/

/-- C1 counterexample: after `get("svc-a", empty endpoint)` cached the
Disabled provider, a second `get("svc-a", endpoint "collector:4318")`
does NOT return a live provider — it hits the cache and returns the nil
provider again, with zero exporter constructions, contradicting the
claimed scenario. -/
theorem getTracerProvider_disabled_sticks :
    GetTracerProvider extOK ctx0 cfgDisabledA [] state0 =
      (Except.ok none, { state0 with cache := [("svc-a", none)] }) ∧
    GetTracerProvider extOK ctx0 cfgLiveA []
        { state0 with cache := [("svc-a", none)] } =
      (Except.ok none, { state0 with cache := [("svc-a", none)] }) ∧
    (GetTracerProvider extOK ctx0 cfgLiveA []
        { state0 with cache := [("svc-a", none)] }).2.constructions = 0 :=
  ⟨rfl, rfl, rfl⟩

/-- C1 (amended): for a fresh key, `get` with an empty endpoint returns
the Disabled (nil) provider with no exporter construction and memoizes
it; a subsequent `get` for the same key with a non-empty endpoint still
returns the cached Disabled provider and constructs nothing, because
the disabled outcome is memoized; a live provider with exactly one
exporter construction results only when no cache entry exists for the
key. -/
theorem getTracerProvider_disabled_then_nonempty (ext : Ext)
    (ctx : GoContext) (cfgE cfgL : Config) (s : ProviderCacheState)
    (hkey : cfgL.GetServiceName = cfgE.GetServiceName)
    (hfresh : s.cache.lookup cfgE.GetServiceName = none)
    (he : cfgE.GetOTLPEndpoint = "")
    (hl : cfgL.GetOTLPEndpoint ≠ "")
    (hr : ext.resourceNew cfgL = Except.ok ())
    (ht : ∃ t, GetTLSConfig ext cfgL = Except.ok t)
    (hx : ext.exporterNew cfgL = Except.ok ()) :
    GetTracerProvider ext ctx cfgE [] s =
      (Except.ok none,
        { s with cache := (cfgE.GetServiceName, none) :: s.cache }) ∧
    GetTracerProvider ext ctx cfgL []
        { s with cache := (cfgE.GetServiceName, none) :: s.cache } =
      (Except.ok none,
        { s with cache := (cfgE.GetServiceName, none) :: s.cache }) ∧
    GetTracerProvider ext ctx cfgL [] s =
      (Except.ok (some s.nextId),
        { s with
            cache := (cfgL.GetServiceName, some s.nextId) :: s.cache,
            constructions := s.constructions + 1,
            nextId := s.nextId + 1,
            globalProvider := some s.nextId }) := by
  have hdis := (createProvider_disabled ext cfgE (buildModuleOptions []) s he).1
  have h1 : GetTracerProvider ext ctx cfgE [] s =
      (Except.ok none,
        { s with cache := (cfgE.GetServiceName, none) :: s.cache }) := by
    rw [getTracerProvider_miss_ok ext ctx cfgE [] s s none hfresh hdis,
      finishTracerGet_miss ext ctx _ none s hfresh]
  have hfreshL : s.cache.lookup cfgL.GetServiceName = none := by
    rw [hkey]; exact hfresh
  have hsucc := createTracerProvider_success ext cfgL
    (buildModuleOptions []) s hl hr ht hx
  refine ⟨h1, ?_, ?_⟩
  · exact getTracerProvider_hit ext ctx cfgL [] _ none (by simp [List.lookup, hkey])
  · rw [getTracerProvider_miss_ok ext ctx cfgL [] s _ (some s.nextId) hfreshL hsucc,
      finishTracerGet_miss ext ctx cfgL.GetServiceName (some s.nextId)
        { s with
            nextId := s.nextId + 1,
            constructions := s.constructions + 1,
            globalProvider := some s.nextId }
        hfreshL]

/-- C1 (amended) witness: the concrete disabled-then-live scenario for
service `svc-a` on a fresh cache. -/
theorem getTracerProvider_disabled_then_nonempty_witness :
    GetTracerProvider extOK ctx0 cfgDisabledA [] state0 =
      (Except.ok none, { state0 with cache := [("svc-a", none)] }) ∧
    GetTracerProvider extOK ctx0 cfgLiveA []
        { state0 with cache := [("svc-a", none)] } =
      (Except.ok none, { state0 with cache := [("svc-a", none)] }) ∧
    GetTracerProvider extOK ctx0 cfgLiveA [] state0 =
      (Except.ok (some 0),
        { state0 with
            cache := [("svc-a", some 0)],
            constructions := 1,
            nextId := 1,
            globalProvider := some 0 }) := by
  have h := getTracerProvider_disabled_then_nonempty extOK ctx0 cfgDisabledA
    cfgLiveA state0 rfl rfl rfl (by decide) rfl ⟨none, rfl⟩ rfl
  exact h

/-! ## C5 -/

/-- C5: when the factory invoked on a cache miss fails, `get`
propagates the error and performs no cache mutation — the cache map is
exactly what it was — so a later `get` for the same key reaches the
factory again (and, when that factory call succeeds, inserts its fresh
provider); for the tracer and the meter cache alike. -/
theorem getProvider_factory_error_propagates (ext ext2 : Ext)
    (ctx : GoContext) (cfg : Config)
    (opts : List (Option (ModuleOptions → ModuleOptions)))
    (sT sM sT1 sM1 : ProviderCacheState) (eT eM : String)
    (hT : sT.cache.lookup cfg.GetServiceName = none)
    (hM : sM.cache.lookup cfg.GetServiceName = none)
    (hcT : createTracerProvider ext cfg (buildModuleOptions opts) sT =
      (Except.error eT, sT1))
    (hcM : createMeterProvider ext cfg (buildModuleOptions opts) sM =
      (Except.error eM, sM1)) :
    (GetTracerProvider ext ctx cfg opts sT = (Except.error eT, sT1) ∧
    sT1.cache = sT.cache ∧
    ∀ tp sT2, createTracerProvider ext2 cfg (buildModuleOptions opts) sT1 =
        (Except.ok tp, sT2) →
      GetTracerProvider ext2 ctx cfg opts sT1 =
        (Except.ok tp,
          { sT2 with cache := (cfg.GetServiceName, tp) :: sT2.cache })) ∧
    (GetMeterProvider ext ctx cfg opts sM = (Except.error eM, sM1) ∧
    sM1.cache = sM.cache ∧
    ∀ mp sM2, createMeterProvider ext2 cfg (buildModuleOptions opts) sM1 =
        (Except.ok mp, sM2) →
      GetMeterProvider ext2 ctx cfg opts sM1 =
        (Except.ok mp,
          { sM2 with cache := (cfg.GetServiceName, mp) :: sM2.cache })) := by
  have hTc : sT1.cache = sT.cache := by
    have h := createTracerProvider_cache ext cfg (buildModuleOptions opts) sT
    rw [hcT] at h
    exact h
  have hMc : sM1.cache = sM.cache := by
    have h := createMeterProvider_cache ext cfg (buildModuleOptions opts) sM
    rw [hcM] at h
    exact h
  have hT1 : sT1.cache.lookup cfg.GetServiceName = none := by
    rw [hTc]; exact hT
  have hM1 : sM1.cache.lookup cfg.GetServiceName = none := by
    rw [hMc]; exact hM
  refine ⟨⟨getTracerProvider_miss_error ext ctx cfg opts sT sT1 eT hT hcT,
      hTc, ?_⟩,
    getMeterProvider_miss_error ext ctx cfg opts sM sM1 eM hM hcM,
      hMc, ?_⟩
  · intro tp sT2 hc2
    have hT2 : sT2.cache.lookup cfg.GetServiceName = none := by
      have h := createTracerProvider_cache ext2 cfg (buildModuleOptions opts) sT1
      rw [hc2] at h
      rw [h]
      exact hT1
    rw [getTracerProvider_miss_ok ext2 ctx cfg opts sT1 sT2 tp hT1 hc2,
      finishTracerGet_miss ext2 ctx cfg.GetServiceName tp sT2 hT2]
  · intro mp sM2 hc2
    have hM2 : sM2.cache.lookup cfg.GetServiceName = none := by
      have h := createMeterProvider_cache ext2 cfg (buildModuleOptions opts) sM1
      rw [hc2] at h
      rw [h]
      exact hM1
    rw [getMeterProvider_miss_ok ext2 ctx cfg opts sM1 sM2 mp hM1 hc2,
      finishMeterGet_miss ext2 ctx cfg.GetServiceName mp sM2 hM2]

/-- C5 witness: a failing exporter constructor propagates its wrapped
error and leaves the cache map empty, after which a succeeding call
constructs and caches a provider. -/
theorem getProvider_factory_error_propagates_witness :
    GetTracerProvider extExporterFail ctx0 cfgLiveA [] state0 =
      (Except.error "failed to create OTLP trace exporter: connection refused",
        { state0 with constructions := 1 }) ∧
    GetTracerProvider extOK ctx0 cfgLiveA [] { state0 with constructions := 1 } =
      (Except.ok (some 0),
        { state0 with
            cache := [("svc-a", some 0)],
            constructions := 2,
            nextId := 1,
            globalProvider := some 0 }) ∧
    GetMeterProvider extExporterFail ctx0 cfgLiveA [] state0 =
      (Except.error "failed to create OTLP metric exporter: connection refused",
        { state0 with constructions := 1 }) := by
  have h := getProvider_factory_error_propagates extExporterFail extOK ctx0
    cfgLiveA [] state0 state0
    { state0 with constructions := 1 } { state0 with constructions := 1 }
    "failed to create OTLP trace exporter: connection refused"
    "failed to create OTLP metric exporter: connection refused"
    rfl rfl rfl rfl
  exact ⟨h.1.1, h.1.2.2 (some 0) _ rfl, h.2.1⟩

/-! ## C8 -/

/-- C8: `clear` drops every cache entry and issues no shutdown call on
any cached provider; after `clear`, a `get` for a previously-cached key
runs the factory again and returns a provider distinct, by identity,
from the pre-clear one (which the pre-clear `get` still returned from
the cache). -/
theorem clearTracerProviderCache_isolation (ext : Ext) (ctx : GoContext)
    (cfg : Config) (opts : List (Option (ModuleOptions → ModuleOptions)))
    (s : ProviderCacheState) (p : Nat)
    (hcached : s.cache.lookup cfg.GetServiceName = some (some p))
    (hbound : ∀ q, s.cache.lookup cfg.GetServiceName = some (some q) →
      q < s.nextId)
    (hl : cfg.GetOTLPEndpoint ≠ "")
    (hr : ext.resourceNew cfg = Except.ok ())
    (ht : ∃ t, GetTLSConfig ext cfg = Except.ok t)
    (hx : ext.exporterNew cfg = Except.ok ()) :
    GetTracerProvider ext ctx cfg opts s = (Except.ok (some p), s) ∧
    ClearTracerProviderCache s = { s with cache := [] } ∧
    (ClearTracerProviderCache s).closes = s.closes ∧
    GetTracerProvider ext ctx cfg opts (ClearTracerProviderCache s) =
      (Except.ok (some s.nextId),
        { s with
            cache := [(cfg.GetServiceName, some s.nextId)],
            constructions := s.constructions + 1,
            nextId := s.nextId + 1,
            globalProvider := some s.nextId }) ∧
    some s.nextId ≠ some p := by
  have hp : p < s.nextId := hbound p hcached
  have hcleared :
      (ClearTracerProviderCache s).cache.lookup cfg.GetServiceName = none := rfl
  have hsucc := createTracerProvider_success ext cfg (buildModuleOptions opts)
    (ClearTracerProviderCache s) hl hr ht hx
  refine ⟨getTracerProvider_hit ext ctx cfg opts s (some p) hcached,
    rfl, rfl, ?_, by simp; omega⟩
  rw [getTracerProvider_miss_ok ext ctx cfg opts (ClearTracerProviderCache s) _
      (some (ClearTracerProviderCache s).nextId) hcleared hsucc,
    finishTracerGet_miss ext ctx cfg.GetServiceName
      (some (ClearTracerProviderCache s).nextId)
      { ClearTracerProviderCache s with
          constructions := (ClearTracerProviderCache s).constructions + 1,
          nextId := (ClearTracerProviderCache s).nextId + 1,
          globalProvider := some (ClearTracerProviderCache s).nextId }
      rfl]
  rfl

/-- C8 witness: a cache holding provider `0` for `svc-a` is cleared
without any shutdown call, and the next `get` constructs and returns
the distinct provider `1`. -/
theorem clearTracerProviderCache_isolation_witness :
    GetTracerProvider extOK ctx0 cfgLiveA []
        { cache := [("svc-a", some 0)], nextId := 1, constructions := 1,
          closes := [], globalProvider := some 0 } =
      (Except.ok (some 0),
        { cache := [("svc-a", some 0)], nextId := 1, constructions := 1,
          closes := [], globalProvider := some 0 }) ∧
    GetTracerProvider extOK ctx0 cfgLiveA []
        (ClearTracerProviderCache
          { cache := [("svc-a", some 0)], nextId := 1, constructions := 1,
            closes := [], globalProvider := some 0 }) =
      (Except.ok (some 1),
        { cache := [("svc-a", some 1)], nextId := 2, constructions := 2,
          closes := [], globalProvider := some 1 }) ∧
    (some 1 : Option Nat) ≠ some 0 := by
  have h := clearTracerProviderCache_isolation extOK ctx0 cfgLiveA []
    { cache := [("svc-a", some 0)], nextId := 1, constructions := 1,
      closes := [], globalProvider := some 0 } 0
    rfl
    (by
      intro q hq
      have hq2 : (some (some 0) : Option (Option Nat)) = some (some q) := hq
      simp at hq2
      subst hq2
      decide)
    (by decide) rfl ⟨none, rfl⟩ rfl
  exact ⟨h.1, h.2.2.2.1, h.2.2.2.2⟩

/-! ## C3 -/

/-- C3: under the racing schedule in which two callers for the same
fresh key both miss the cache and both construct a candidate, the first
re-check inserts exactly one candidate, the second re-check returns
that same winner and discards the losing candidate with exactly one
shutdown call (whose error is ignored), and every later `get` for the
key returns the same winner — for the tracer and the meter cache
alike. -/
theorem providerCache_at_most_one_live (ext : Ext) (ctx : GoContext)
    (cfg : Config) (opts : List (Option (ModuleOptions → ModuleOptions)))
    (sT0 sT1 sT2 sM0 sM1 sM2 : ProviderCacheState) (c1 c2 m1 m2 : Nat)
    (hT : sT0.cache.lookup cfg.GetServiceName = none)
    (hT1 : createTracerProvider ext cfg (buildModuleOptions opts) sT0 =
      (Except.ok (some c1), sT1))
    (hT2 : createTracerProvider ext cfg (buildModuleOptions opts) sT1 =
      (Except.ok (some c2), sT2))
    (hM : sM0.cache.lookup cfg.GetServiceName = none)
    (hM1 : createMeterProvider ext cfg (buildModuleOptions opts) sM0 =
      (Except.ok (some m1), sM1))
    (hM2 : createMeterProvider ext cfg (buildModuleOptions opts) sM1 =
      (Except.ok (some m2), sM2)) :
    (finishTracerGet ext ctx cfg.GetServiceName (some c1) sT2 =
      (some c1,
        { sT2 with cache := (cfg.GetServiceName, some c1) :: sT2.cache }) ∧
    finishTracerGet ext ctx cfg.GetServiceName (some c2)
        { sT2 with cache := (cfg.GetServiceName, some c1) :: sT2.cache } =
      (some c1,
        { sT2 with
            cache := (cfg.GetServiceName, some c1) :: sT2.cache,
            closes := sT2.closes ++ [c2] }) ∧
    GetTracerProvider ext ctx cfg opts
        { sT2 with
            cache := (cfg.GetServiceName, some c1) :: sT2.cache,
            closes := sT2.closes ++ [c2] } =
      (Except.ok (some c1),
        { sT2 with
            cache := (cfg.GetServiceName, some c1) :: sT2.cache,
            closes := sT2.closes ++ [c2] })) ∧
    (finishMeterGet ext ctx cfg.GetServiceName (some m1) sM2 =
      (some m1,
        { sM2 with cache := (cfg.GetServiceName, some m1) :: sM2.cache }) ∧
    finishMeterGet ext ctx cfg.GetServiceName (some m2)
        { sM2 with cache := (cfg.GetServiceName, some m1) :: sM2.cache } =
      (some m1,
        { sM2 with
            cache := (cfg.GetServiceName, some m1) :: sM2.cache,
            closes := sM2.closes ++ [m2] }) ∧
    GetMeterProvider ext ctx cfg opts
        { sM2 with
            cache := (cfg.GetServiceName, some m1) :: sM2.cache,
            closes := sM2.closes ++ [m2] } =
      (Except.ok (some m1),
        { sM2 with
            cache := (cfg.GetServiceName, some m1) :: sM2.cache,
            closes := sM2.closes ++ [m2] })) := by
  have hT2c : sT2.cache.lookup cfg.GetServiceName = none := by
    have ha := createTracerProvider_cache ext cfg (buildModuleOptions opts) sT0
    have hb := createTracerProvider_cache ext cfg (buildModuleOptions opts) sT1
    rw [hT1] at ha
    rw [hT2] at hb
    rw [hb, ha]
    exact hT
  have hM2c : sM2.cache.lookup cfg.GetServiceName = none := by
    have ha := createMeterProvider_cache ext cfg (buildModuleOptions opts) sM0
    have hb := createMeterProvider_cache ext cfg (buildModuleOptions opts) sM1
    rw [hM1] at ha
    rw [hM2] at hb
    rw [hb, ha]
    exact hM
  have hlookT : (({ sT2 with
      cache := (cfg.GetServiceName, some c1) :: sT2.cache } :
        ProviderCacheState)).cache.lookup cfg.GetServiceName =
      some (some c1) := by
    simp [List.lookup]
  have hlookM : (({ sM2 with
      cache := (cfg.GetServiceName, some m1) :: sM2.cache } :
        ProviderCacheState)).cache.lookup cfg.GetServiceName =
      some (some m1) := by
    simp [List.lookup]
  refine ⟨⟨finishTracerGet_miss ext ctx _ (some c1) sT2 hT2c, ?_, ?_⟩,
    finishMeterGet_miss ext ctx _ (some m1) sM2 hM2c, ?_, ?_⟩
  · rw [finishTracerGet_hit_some ext ctx _ c2 _ (some c1) hlookT]
  · exact getTracerProvider_hit ext ctx cfg opts _ (some c1) hlookT
  · rw [finishMeterGet_hit_some ext ctx _ m2 _ (some m1) hlookM]
  · exact getMeterProvider_hit ext ctx cfg opts _ (some m1) hlookM

/-- C3 witness: the two-caller race on a fresh `svc-a` cache; the first
candidate `0` wins, the losing candidate `1` is shut down exactly once,
and later calls keep returning `0`. -/
theorem providerCache_at_most_one_live_witness :
    (finishTracerGet extOK ctx0 "svc-a" (some 0)
        { cache := [], nextId := 2, constructions := 2, closes := [],
          globalProvider := some 1 } =
      (some 0,
        { cache := [("svc-a", some 0)], nextId := 2, constructions := 2,
          closes := [], globalProvider := some 1 }) ∧
    finishTracerGet extOK ctx0 "svc-a" (some 1)
        { cache := [("svc-a", some 0)], nextId := 2, constructions := 2,
          closes := [], globalProvider := some 1 } =
      (some 0,
        { cache := [("svc-a", some 0)], nextId := 2, constructions := 2,
          closes := [1], globalProvider := some 1 }) ∧
    GetTracerProvider extOK ctx0 cfgLiveA []
        { cache := [("svc-a", some 0)], nextId := 2, constructions := 2,
          closes := [1], globalProvider := some 1 } =
      (Except.ok (some 0),
        { cache := [("svc-a", some 0)], nextId := 2, constructions := 2,
          closes := [1], globalProvider := some 1 })) ∧
    (finishMeterGet extOK ctx0 "svc-a" (some 0)
        { cache := [], nextId := 2, constructions := 2, closes := [],
          globalProvider := some 1 } =
      (some 0,
        { cache := [("svc-a", some 0)], nextId := 2, constructions := 2,
          closes := [], globalProvider := some 1 }) ∧
    finishMeterGet extOK ctx0 "svc-a" (some 1)
        { cache := [("svc-a", some 0)], nextId := 2, constructions := 2,
          closes := [], globalProvider := some 1 } =
      (some 0,
        { cache := [("svc-a", some 0)], nextId := 2, constructions := 2,
          closes := [1], globalProvider := some 1 }) ∧
    GetMeterProvider extOK ctx0 cfgLiveA []
        { cache := [("svc-a", some 0)], nextId := 2, constructions := 2,
          closes := [1], globalProvider := some 1 } =
      (Except.ok (some 0),
        { cache := [("svc-a", some 0)], nextId := 2, constructions := 2,
          closes := [1], globalProvider := some 1 })) :=
  providerCache_at_most_one_live extOK ctx0 cfgLiveA [] state0
    { cache := [], nextId := 1, constructions := 1, closes := [],
      globalProvider := some 0 }
    { cache := [], nextId := 2, constructions := 2, closes := [],
      globalProvider := some 1 }
    state0
    { cache := [], nextId := 1, constructions := 1, closes := [],
      globalProvider := some 0 }
    { cache := [], nextId := 2, constructions := 2, closes := [],
      globalProvider := some 1 }
    0 1 0 1 rfl rfl rfl rfl rfl rfl

/-! ## C6 -/

/-- C6: shutting down the nil (Disabled) provider is a no-op returning
no error; shutting down a live provider invokes its `Shutdown` under a
context derived from the caller's by a 5-second timeout, whose deadline
exists (even when the caller's context has none) and is at most
`now + 5s` — for the tracer and the logger helper alike. -/
theorem shutdownProvider_nil_noop_and_bounded_timeout (ext : Ext)
    (ctx : GoContext) (now : Nat) (t l : Nat) (clT clL : List Nat) :
    ShutdownTracerProvider ext ctx now none clT = (none, clT) ∧
    ShutdownLoggerProvider ext ctx now none clL = (none, clL) ∧
    ShutdownTracerProvider ext ctx now (some t) clT =
      (ext.providerShutdown t (withTimeout ctx now (5 * timeSecond)),
        clT ++ [t]) ∧
    ShutdownLoggerProvider ext ctx now (some l) clL =
      (ext.providerShutdown l (withTimeout ctx now (5 * timeSecond)),
        clL ++ [l]) ∧
    ∃ d, (withTimeout ctx now (5 * timeSecond)).deadline = some d ∧
      d ≤ now + 5 * timeSecond := by
  refine ⟨rfl, rfl, rfl, rfl, ?_⟩
  cases hd : ctx.deadline with
  | none =>
    exact ⟨now + 5 * timeSecond, by simp [withTimeout, hd], le_refl _⟩
  | some t0 =>
    exact ⟨min t0 (now + 5 * timeSecond), by simp [withTimeout, hd],
      min_le_right _ _⟩

/-! ## C7 -/

/-- C7: the lifecycle coordinator's stop hook invokes shutdown on every
registered provider — the tracer provider and the meter provider — even
when an earlier shutdown returns an error (the oracle `ext` is
arbitrary, so this covers failing shutdowns), and the hook itself
always returns nil: shutdown errors are swallowed. -/
theorem registerLifecycleHooks_onStop_swallows_and_completes (ext : Ext)
    (ctx : GoContext) (now : Nat) (tm : TracingModule)
    (tracerCloses meterCloses : List Nat) :
    registerLifecycleHooksOnStop ext ctx now tm tracerCloses meterCloses =
      (none, tracerCloses ++ tm.tracerProvider.toList,
        meterCloses ++ tm.meterProvider.toList) := by
  obtain ⟨tp, mp⟩ := tm
  cases tp <;> cases mp <;>
    simp [registerLifecycleHooksOnStop, ShutdownTracerProvider,
      ShutdownMeterProvider]

end Tracing
